import Mathlib

/-!
# TAcommissioning chaincode: booking store and lifecycle operations

A shallow embedding of `src/TAcommissioning.go` (travel-agent commissioning
chaincode for Hyperledger Fabric) and theorems about it.

Conventions of the embedding

* The ledger is the `ChaincodeStub`: a map from keys to stored bytes, together
  with two oracles saying for which keys `GetState` / `PutState` return an error.
* Stored bytes are seen through `encoding/json`: a cell either decodes into the
  exported fields of `Booking` (`Bytes.object`) or it does not (`Bytes.undecodable`).
  The field `status` is unexported in the source, so it is not part of the encoding.
* `float32` amounts are finite binary floating point numbers, held as integer
  multiples of `2^-149`; products are rounded to nearest, ties to even.
* Indexing `args[i]` beyond the length of `args` is a run-time panic: `Result.panic`.
* A function body that ends without `return` yields the zero result (no payload, no error).
-/

set_option maxRecDepth 100000
set_option linter.unusedVariables false

namespace TAcommissioning

/-! ## float32 -/

/-- A finite `float32`, held as the integer number of `2^-149` units it denotes
(`2^-149` is the smallest positive subnormal, every finite float32 is a multiple of it).
The two zeros are identified. -/
structure Float32 where
  units : Int
deriving DecidableEq, Repr

namespace Float32

/-- Nearest natural number to `n / d`, ties to the even neighbour. -/
def roundHalfEven (n d : Nat) : Nat :=
  let q := n / d
  let r := n % d
  if 2 * r < d then q else if d < 2 * r then q + 1 else if q % 2 = 0 then q else q + 1

/-- Number of binary digits of `x` (`0` for `0`); `fuel` bounds the recursion. -/
def bitLength : Nat → Nat → Nat
  | 0, _ => 0
  | fuel + 1, x => if x = 0 then 0 else bitLength fuel (x / 2) + 1

/-- The float32 nearest to the rational `± n / d`, for `d` positive (round to nearest, ties to
even, 24 bit significand, gradual underflow); the upper range limit is checked by `finite`. -/
def round (neg : Bool) (n d : Nat) : Float32 :=
  let q := n * 2 ^ 149 / d
  let k := bitLength q q - 24
  let m := roundHalfEven (n * 2 ^ 149) (d * 2 ^ k)
  let u : Int := ((m * 2 ^ k : Nat) : Int)
  if neg then ⟨-u⟩ else ⟨u⟩

/-- Magnitude below `2^128`: the value is a finite float32 and not an overflow. -/
def finite (x : Float32) : Bool :=
  decide (x.units.natAbs < 2 ^ 128 * 2 ^ 149)

/-- Go's `a * b` on float32 operands: the exact product, rounded. Overflow to infinity is not
represented; the product of a finite float32 with `0.02` stays below `2^128`. -/
def mul (a b : Float32) : Float32 :=
  round (decide (a.units * b.units < 0)) (a.units * b.units).natAbs (2 ^ 149 * 2 ^ 149)

/-- The float32 with integer value `n` (when `n` fits the significand), else the nearest one. -/
def ofNat (n : Nat) : Float32 := round false n 1

/-- Zero value of a float32 variable. -/
def zero : Float32 := ⟨0⟩

end Float32

/-- The untyped constant `0.02` of `updateTAPay`, converted to float32. -/
def COMMISSION_RATE : Float32 := Float32.round false 2 100

/-! ## Text conversions of the Go standard library used by the source -/

/-- Value of a non-empty string of decimal digits. -/
def parseDigits (cs : List Char) : Option Nat :=
  if cs = [] ∨ ¬ cs.all Char.isDigit then none
  else some (cs.foldl (fun a c => 10 * a + (c.toNat - 48)) 0)

/-- Model of `strconv.Atoi`: optional sign, decimal digits, 64 bit range. The second component
is `false` when Go returns a non-nil error; the value is then `0` (syntax) or the nearest
bound (range), as in Go. -/
def strconv_Atoi (s : String) : Int × Bool :=
  let signed : Bool × List Char :=
    match s.data with
    | '-' :: r => (true, r)
    | '+' :: r => (false, r)
    | r => (false, r)
  match parseDigits signed.2 with
  | none => (0, false)
  | some n =>
    if signed.1 then
      if n ≤ 2 ^ 63 then (-(n : Int), true) else (-(2 ^ 63 : Int), false)
    else
      if n < 2 ^ 63 then ((n : Int), true) else ((2 ^ 63 - 1 : Int), false)

/-- Model of `strconv.Itoa`: the decimal text of an integer, used where the source passes the
integer booking id as a ledger key. -/
def strconv_Itoa (i : Int) : String := toString i

/-- Model of `strings.ToLower`: the letters `A`-`Z` are lowered, every other character is kept
(Go also lowers the upper case letters outside ASCII). -/
def strings_ToLower (s : String) : String := String.mk (s.data.map Char.toLower)

/-- A JSON number literal `-? int frac? exp?` read as the exact rational `± n / d`. -/
def parseJSONNumber (s : String) : Option (Bool × Nat × Nat) :=
  let signed : Bool × List Char :=
    match s.data with
    | '-' :: r => (true, r)
    | r => (false, r)
  let ip := signed.2.span Char.isDigit
  if ip.1 = [] ∨ (1 < ip.1.length ∧ ip.1.head? = some '0') then none else
  let fp : Option (List Char × List Char) :=
    match ip.2 with
    | '.' :: r => let f := r.span Char.isDigit; if f.1 = [] then none else some f
    | r => some ([], r)
  match fp with
  | none => none
  | some (fdigits, r2) =>
    let ep : Option Int :=
      match r2 with
      | [] => some 0
      | c :: r =>
        if c = 'e' ∨ c = 'E' then
          match r with
          | '-' :: ds => (parseDigits ds).map (fun n => -(n : Int))
          | '+' :: ds => (parseDigits ds).map (fun n => (n : Int))
          | ds => (parseDigits ds).map (fun n => (n : Int))
        else none
    match ep, parseDigits (ip.1 ++ fdigits) with
    | some e, some mant =>
      let scale : Int := e - (fdigits.length : Int)
      if 0 ≤ scale then some (signed.1, mant * 10 ^ scale.toNat, 1)
      else some (signed.1, mant, 10 ^ (-scale).toNat)
    | _, _ => none

/-- JSON white space: space, tab, line feed, carriage return. -/
def isJSONSpace (c : Char) : Bool :=
  c.toNat = 32 || c.toNat = 9 || c.toNat = 10 || c.toNat = 13

/-- A text without its leading and trailing JSON white space. -/
def trimJSON (s : String) : String :=
  String.mk ((s.data.dropWhile isJSONSpace).reverse.dropWhile isJSONSpace).reverse

/-- A JSON value decoded into a float32 field of a zero `Booking`, as `encoding/json` does it:
white space around the value is skipped, `null` leaves the zero value, a number is correctly
rounded and rejected when out of range; every other text is an error (`none`). -/
def parseFloat32 (s : String) : Option Float32 :=
  if trimJSON s = "null" then some Float32.zero
  else
    match parseJSONNumber (trimJSON s) with
    | none => none
    | some (neg, n, d) =>
      let x := Float32.round neg n d
      if x.finite then some x else none

/-- A JSON value decoded into a bool field of a zero `Booking`, as `encoding/json` does it:
white space around the value is skipped, `null` leaves the zero value `false`; every text other
than a boolean literal or `null` is an error (`none`). -/
def parseBool (s : String) : Option Bool :=
  if trimJSON s = "true" then some true
  else if trimJSON s = "false" then some false
  else if trimJSON s = "null" then some false
  else none

/-! ## Data model -/

/-- Booking: the structure for a room reservation (source lines 33-50). -/
structure Booking where
  TravelAgentID : String
  BookingID : Int
  TotalBill : Float32
  IsSettled : Bool
  Payables : Float32
  status : Int
deriving DecidableEq, Repr

/-- Status constant `STATE_RESERVATION`. -/
def STATE_RESERVATION : Int := 0
/-- Status constant `STATE_INHOUSE`. -/
def STATE_INHOUSE : Int := 1
/-- Status constant `STATE_CHECKOUT`. -/
def STATE_CHECKOUT : Int := 2
/-- Status constant `STATE_CANCEL`. -/
def STATE_CANCEL : Int := 3

/-- The zero value of `Booking` (`var b Booking`). -/
def Booking.zero : Booking :=
  { TravelAgentID := "", BookingID := 0, TotalBill := Float32.zero, IsSettled := false,
    Payables := Float32.zero, status := 0 }

/-- Bytes of a ledger cell as `encoding/json` sees them: either a document carrying the five
exported fields of `Booking` (under their JSON names `TravelAgentId`, `bookingId`, `totalBill`,
`isSettled`, `payables`), or bytes that `json.Unmarshal` rejects. -/
inductive Bytes where
  | object (TravelAgentId : String) (bookingId : Int) (totalBill : Float32) (isSettled : Bool)
      (payables : Float32)
  | undecodable (raw : String)
deriving DecidableEq, Repr

/-- Model of `json.Marshal` on a `Booking`: the exported fields are written, the unexported
field `status` is skipped. -/
def json_Marshal (b : Booking) : Bytes :=
  Bytes.object b.TravelAgentID b.BookingID b.TotalBill b.IsSettled b.Payables

/-- Model of `json.Unmarshal` into a zero `Booking`: `none` is a decoding error (also for the
nil bytes of an absent key); `status` keeps its zero value. -/
def json_Unmarshal (bytes : Option Bytes) : Option Booking :=
  match bytes with
  | some (Bytes.object a i t s p) =>
    some { TravelAgentID := a, BookingID := i, TotalBill := t, IsSettled := s, Payables := p,
           status := 0 }
  | some (Bytes.undecodable _) => none
  | none => none

/-! ## Ledger -/

/-- The shim stub: world state plus the keys on which reads and writes report an error. -/
structure ChaincodeStub where
  state : String → Option Bytes
  getErr : String → Bool
  putErr : String → Bool

namespace ChaincodeStub

/-- Model of `stub.GetState(key)`: `none` is `err != nil`; `some none` is nil bytes (no value under
the key). -/
def GetState (stub : ChaincodeStub) (key : String) : Option (Option Bytes) :=
  if stub.getErr key then none else some (stub.state key)

/-- The ledger with `value` stored under `key`. -/
def write (stub : ChaincodeStub) (key : String) (value : Bytes) : ChaincodeStub :=
  { stub with state := fun k => if k = key then some value else stub.state k }

/-- Model of `stub.PutState(key, value)`: `none` is `err != nil` (nothing written). -/
def PutState (stub : ChaincodeStub) (key : String) (value : Bytes) : Option ChaincodeStub :=
  if stub.putErr key then none else some (stub.write key value)

/-- A ledger with no entries whose reads and writes succeed. -/
def empty : ChaincodeStub :=
  { state := fun _ => none, getErr := fun _ => false, putErr := fun _ => false }

end ChaincodeStub

/-! ## Outcomes -/

/-- The error results the source constructs (`shim.Error(..)`, `errors.New(..)`). -/
inductive Failure where
  /-- Message "Incorrect number of arguments. Expecting Booking ID". -/
  | incorrectNumberOfArguments
  /-- Message "Failed to get state for " + bookingID. -/
  | failedToGetState (bookingID : String)
  /-- Message "Booking ID does not exist: " + bookingID. -/
  | bookingDoesNotExist (bookingID : String)
  /-- The `err.Error()` of a failed `json.Unmarshal`. -/
  | unmarshalError
  /-- Message "payables cant be updated as settlement is pending for booking id" + bookingID. -/
  | settlementPending (bookingID : String)
  /-- The `err.Error()` of a failed `PutState`. -/
  | putStateError
  /-- Message "Invalid JSON object". -/
  | invalidJSONObject
  /-- Message "Function of the name " + function + " doesn't exist.". -/
  | functionDoesNotExist (function : String)
  /-- Message "QUERY: Incorrect number of arguments passed". -/
  | queryIncorrectNumberOfArguments
  /-- Message "Received unknown function invocation " + function. -/
  | unknownFunctionInvocation (function : String)
  /-- Message "Error retrieving booking with BookingID = ". -/
  | errorRetrievingBooking
  /-- Message "Invalid booking record" + string(bytes). -/
  | invalidBookingRecord (bytes : Option Bytes)
  /-- Message "Error storing booking record". -/
  | errorStoringBooking
deriving DecidableEq, Repr

/-- Result of running a function of the chaincode. -/
inductive Result (α : Type) where
  | ok (value : α)
  | error (e : Failure)
  | panic
deriving DecidableEq, Repr

/-- Payload of a chaincode response: the source only ever returns nil bytes. -/
abbrev Payload := Option Bytes

/-! ## General functions (the booking store) -/

/-- Function `retrieveBooking` (source lines 97-107): reads `args[0]` from the ledger and decodes
it. Only a read error is tested after `GetState`, so the nil bytes of an absent key go to
`json.Unmarshal`. The source decodes into `v` and returns `b`; they are read as one variable. -/
def retrieveBooking (stub : ChaincodeStub) (args : List String) : Result Booking :=
  match args.get? 0 with
  | none => Result.panic
  | some key =>
    match stub.GetState key with
    | none => Result.error Failure.errorRetrievingBooking
    | some bytes =>
      match json_Unmarshal bytes with
      | none => Result.error (Failure.invalidBookingRecord bytes)
      | some b => Result.ok b

/-- Function `save_changes` (source lines 114-123): encodes the booking and writes it under its
booking id. -/
def save_changes (stub : ChaincodeStub) (b : Booking) : Result Bool × ChaincodeStub :=
  let bytes := json_Marshal b
  match stub.PutState (strconv_Itoa b.BookingID) bytes with
  | none => (Result.error Failure.errorStoringBooking, stub)
  | some stub1 => (Result.ok true, stub1)

/-- Function `Init` (source lines 76-85): stores a zero booking under the key "book"; the result
of `PutState` is not tested. -/
def Init (stub : ChaincodeStub) (function : String) (args : List String) :
    Result Payload × ChaincodeStub :=
  match stub.PutState "book" (json_Marshal Booking.zero) with
  | none => (Result.ok none, stub)
  | some stub1 => (Result.ok none, stub1)

/-! ## Update functions -/

/-- The document `booking_json` of `initBooking` (source line 203) together with the
`json.Unmarshal` test on it (lines 205-206). Line 203 is not Go; it is read as the JSON document
assembled from the five values: the agent id and the integer booking id are taken as they are,
the three texts are decoded as the values of a float32, a bool and a float32 field. `none` is the
"Invalid JSON object" case. The theorems use this reading only on texts that decode. -/
def booking_json (agentID : String) (bookingID : Int) (totalBill isSettled payables : String) :
    Option Bytes :=
  match parseFloat32 totalBill, parseBool isSettled, parseFloat32 payables with
  | some t, some s, some p => some (Bytes.object agentID bookingID t s p)
  | _, _, _ => none

/-- Function `initBooking` (source lines 190-220). Reads `args[0]`, `args[1]`, `args[1]`, `args[3]`
and `args[4]`; the error of `strconv.Atoi` is not looked at; the record is written under the
integer booking id. No read of the ledger precedes the write. -/
def initBooking (stub : ChaincodeStub) (function : String) (args : List String) :
    Result Payload × ChaincodeStub :=
  match args.get? 0, args.get? 1, args.get? 3, args.get? 4 with
  | some a0, some a1, some a3, some a4 =>
    let agentID := strings_ToLower a0
    let bookingID := (strconv_Atoi a1).1
    let totalBill := a1
    let isSettled := a3
    let payables := a4
    match booking_json agentID bookingID totalBill isSettled payables with
    | none => (Result.error Failure.invalidJSONObject, stub)
    | some bookingAsJsonBytes =>
      match stub.PutState (strconv_Itoa bookingID) bookingAsJsonBytes with
      | none => (Result.error Failure.putStateError, stub)
      | some stub1 => (Result.ok none, stub1)
  | _, _, _, _ => (Result.panic, stub)

/-- Lines 236-262 of `updateSettled`, the part of the function behind the reads of `args[1]` and
`args[2]`. No call of `updateSettled` gets here (see `updateSettled_eq`): the argument count
check and the index reads before it exclude each other. The assignment of the bill text to
`TotalBill` (line 254) is read as a conversion to float32 whose failure gives the zero value;
the source has no error path for it. -/
def updateSettled_steps (stub : ChaincodeStub) (bookingID bill : String) :
    Result Payload × ChaincodeStub :=
  match stub.GetState bookingID with
  | none => (Result.error (Failure.failedToGetState bookingID), stub)
  | some none => (Result.error (Failure.bookingDoesNotExist bookingID), stub)
  | some (some bookingAsBytes) =>
    match json_Unmarshal (some bookingAsBytes) with
    | none => (Result.error Failure.unmarshalError, stub)
    | some bookingTemp =>
      let bookingTemp := { bookingTemp with IsSettled := true }
      let bookingTemp := { bookingTemp with TotalBill := (parseFloat32 bill).getD Float32.zero }
      let bookingAsJsonBytes := json_Marshal bookingTemp
      match stub.PutState bookingID bookingAsJsonBytes with
      | none => (Result.error Failure.putStateError, stub)
      | some stub1 => (Result.ok none, stub1)

/-- Function `updateSettled` (source lines 226-263): the argument count must be 2, then
`args[1]` and `args[2]` are read. -/
def updateSettled (stub : ChaincodeStub) (function : String) (args : List String) :
    Result Payload × ChaincodeStub :=
  if args.length ≠ 2 then (Result.error Failure.incorrectNumberOfArguments, stub)
  else
    match args.get? 1, args.get? 2 with
    | some bookingID, some bill => updateSettled_steps stub bookingID bill
    | _, _ => (Result.panic, stub)

/-- Function `updateTAPay` (source lines 268-305). -/
def updateTAPay (stub : ChaincodeStub) (function : String) (args : List String) :
    Result Payload × ChaincodeStub :=
  if args.length ≠ 2 then (Result.error Failure.incorrectNumberOfArguments, stub)
  else
    match args.get? 1 with
    | none => (Result.panic, stub)
    | some bookingID =>
      match stub.GetState bookingID with
      | none => (Result.error (Failure.failedToGetState bookingID), stub)
      | some none => (Result.error (Failure.bookingDoesNotExist bookingID), stub)
      | some (some bookingAsBytes) =>
        match json_Unmarshal (some bookingAsBytes) with
        | none => (Result.error Failure.unmarshalError, stub)
        | some bookingTemp =>
          if bookingTemp.IsSettled ≠ true then
            (Result.error (Failure.settlementPending bookingID), stub)
          else
            let bookingTemp :=
              { bookingTemp with Payables := Float32.mul bookingTemp.TotalBill COMMISSION_RATE }
            let bookingAsJsonBytes := json_Marshal bookingTemp
            match stub.PutState bookingID bookingAsJsonBytes with
            | none => (Result.error Failure.putStateError, stub)
            | some stub1 => (Result.ok none, stub1)

/-! ## Read functions -/

/-- Function `getStatus` (source lines 314-344): after the record is read and decoded,
`retrieveBooking` is run on the booking id and only its error is kept; the function ends without
returning the record. -/
def getStatus (stub : ChaincodeStub) (function : String) (args : List String) :
    Result Payload × ChaincodeStub :=
  if args.length ≠ 2 then (Result.error Failure.incorrectNumberOfArguments, stub)
  else
    match args.get? 1 with
    | none => (Result.panic, stub)
    | some bookingID =>
      match stub.GetState bookingID with
      | none => (Result.error (Failure.failedToGetState bookingID), stub)
      | some none => (Result.error (Failure.bookingDoesNotExist bookingID), stub)
      | some (some bookingAsBytes) =>
        match json_Unmarshal (some bookingAsBytes) with
        | none => (Result.error Failure.unmarshalError, stub)
        | some bookingTemp =>
          match retrieveBooking stub [bookingID] with
          | Result.error e => (Result.error e, stub)
          | Result.panic => (Result.panic, stub)
          | Result.ok _ => (Result.ok none, stub)

/-! ## Router functions -/

/-- Function `Invoke` (source lines 136-153): `caller` is `args[0]`; the callee is given the
caller in the place of `function` and the argument list as received (`args[0]` is the caller,
as the comments of the callees say). -/
def Invoke (stub : ChaincodeStub) (function : String) (args : List String) :
    Result Payload × ChaincodeStub :=
  match args.get? 0 with
  | none => (Result.panic, stub)
  | some caller =>
    if function = "initBooking" ∧ caller = "TA" then initBooking stub caller args
    else if function = "updateSettled" ∧ caller = "HOTEL" then updateSettled stub caller args
    else if function = "updatePayables" ∧ caller = "CTAC" then updateTAPay stub caller args
    else (Result.error (Failure.functionDoesNotExist function), stub)

/-- Function `Query` (source lines 160-171). -/
def Query (stub : ChaincodeStub) (function : String) (args : List String) :
    Result Payload × ChaincodeStub :=
  if function = "getStatus" then
    if args.length ≠ 1 then (Result.error Failure.queryIncorrectNumberOfArguments, stub)
    else
      match args.get? 0 with
      | none => (Result.panic, stub)
      | some a0 => getStatus stub a0 args
  else (Result.error (Failure.unknownFunctionInvocation function), stub)

/-- The booking a ledger cell decodes to, if the key holds a decodable record. -/
def stored (stub : ChaincodeStub) (bookingID : String) : Option Booking :=
  json_Unmarshal (stub.state bookingID)

/-! ## Concrete ledgers used to exercise the theorems -/

/-- A ledger with the single record `b`, stored under `key` as `json.Marshal` writes it. -/
def ledgerWith (key : String) (b : Booking) : ChaincodeStub :=
  { ChaincodeStub.empty with state := fun k => if k = key then some (json_Marshal b) else none }

/-- Booking 101 of agent "ta", bill 1000, settled, no payables yet. -/
def settled1000 : Booking :=
  { TravelAgentID := "ta", BookingID := 101, TotalBill := Float32.ofNat 1000, IsSettled := true,
    Payables := Float32.zero, status := 0 }

/-- Booking 101 of agent "ta", bill 5, settled, no payables yet. -/
def settled5 : Booking :=
  { TravelAgentID := "ta", BookingID := 101, TotalBill := Float32.ofNat 5, IsSettled := true,
    Payables := Float32.zero, status := 0 }

/-- Booking 101 of agent "ta", bill 1200, not settled. -/
def open1200 : Booking :=
  { TravelAgentID := "ta", BookingID := 101, TotalBill := Float32.ofNat 1200, IsSettled := false,
    Payables := Float32.zero, status := 0 }

/-- Booking 101 of agent "ta", bill 1200, not settled, with status CANCEL. -/
def cancelled1200 : Booking :=
  { TravelAgentID := "ta", BookingID := 101, TotalBill := Float32.ofNat 1200, IsSettled := false,
    Payables := Float32.zero, status := STATE_CANCEL }

/-- The ledger after `save_changes` has stored the cancelled booking 101 in the empty ledger. -/
def ledgerCancelled : ChaincodeStub := (save_changes ChaincodeStub.empty cancelled1200).2

/-- Booking 101 created by role TA in the empty ledger, with five arguments. -/
def scenarioCreated : ChaincodeStub :=
  (Invoke ChaincodeStub.empty "initBooking" ["TA", "101", "1200.00", "false", "0"]).2

/-- A ledger whose cell under "101" holds bytes that do not decode. -/
def ledgerCorrupt : ChaincodeStub :=
  { ChaincodeStub.empty with
    state := fun k => if k = "101" then some (Bytes.undecodable "not json") else none }

/-! ## Histories of invocations and the payables invariant -/

/-- One entry of a ledger history: an invocation through the router, or the steps of
`updateSettled` behind its argument check run on a booking id and a bill. -/
inductive Invocation where
  | invoke (function : String) (args : List String)
  | settle (bookingID bill : String)
deriving DecidableEq, Repr

/-- The ledger after one entry of a history. -/
def Invocation.run (stub : ChaincodeStub) : Invocation → ChaincodeStub
  | Invocation.invoke function args => (Invoke stub function args).2
  | Invocation.settle bookingID bill => (updateSettled_steps stub bookingID bill).2

/-- The ledger after a sequence of entries, run from left to right. -/
def history (stub : ChaincodeStub) (calls : List Invocation) : ChaincodeStub :=
  calls.foldl Invocation.run stub

/-- The invariant of the data model: a stored booking has non-zero payables only if it is
settled. -/
def payablesOnlyIfSettled (stub : ChaincodeStub) : Prop :=
  ∀ (k : String) (b : Booking),
    stored stub k = some b → b.Payables ≠ Float32.zero → b.IsSettled = true

/-- An entry that does not create an unsettled booking with payables: an `initBooking`
invocation passes "true" as its fourth argument or a number that decodes to zero as its fifth. -/
def Invocation.createsConsistent : Invocation → Bool
  | Invocation.invoke function args =>
    decide (function = "initBooking" →
      (args.get? 3 = some "true" ∨ (args.get? 4).bind parseFloat32 = some Float32.zero))
  | Invocation.settle _ _ => true

/-! ## Auxiliary facts -/

theorem stored_eq_some_iff (stub : ChaincodeStub) (k : String) (b : Booking) :
    stored stub k = some b ↔ stub.state k = some (json_Marshal b) ∧ b.status = 0 := by
  unfold stored json_Unmarshal json_Marshal
  constructor
  · intro h
    split at h
    · rename_i a i t s p heq
      cases h
      exact ⟨heq, rfl⟩
    · cases h
    · cases h
  · rintro ⟨h, hs⟩
    rw [h]
    cases b
    simp_all

/-- What `initBooking` does on five or more arguments whose texts decode, when the write
succeeds: it writes the new record under the booking id, whatever the ledger held there. -/
theorem initBooking_ok (stub : ChaincodeStub) (function a0 a1 a2 a3 a4 : String)
    (rest : List String) (t p : Float32) (s : Bool)
    (hput : stub.putErr (strconv_Itoa (strconv_Atoi a1).1) = false)
    (ht : parseFloat32 a1 = some t) (hs : parseBool a3 = some s)
    (hp : parseFloat32 a4 = some p) :
    initBooking stub function (a0 :: a1 :: a2 :: a3 :: a4 :: rest)
      = (Result.ok none,
         stub.write (strconv_Itoa (strconv_Atoi a1).1)
           (Bytes.object (strings_ToLower a0) (strconv_Atoi a1).1 t s p)) := by
  simp [initBooking, booking_json, ChaincodeStub.PutState, hput, ht, hs, hp]

/-- Writing the same value twice under a key is writing it once. -/
theorem write_write (stub : ChaincodeStub) (key : String) (v : Bytes) :
    (stub.write key v).write key v = stub.write key v := by
  unfold ChaincodeStub.write
  congr 1
  funext k
  by_cases hk : k = key <;> simp [hk]

/-- The call `updateTAPay` on a settled, decodable record, when the ledger read and write
succeed: the record is written back with the payables computed. -/
theorem updateTAPay_ok (stub : ChaincodeStub) (function a0 bookingID : String) (b : Booking)
    (hget : stub.getErr bookingID = false) (hput : stub.putErr bookingID = false)
    (hstored : stored stub bookingID = some b) (hsettled : b.IsSettled = true) :
    updateTAPay stub function [a0, bookingID]
      = (Result.ok none,
         stub.write bookingID (json_Marshal
           { b with Payables := Float32.mul b.TotalBill COMMISSION_RATE })) := by
  obtain ⟨hst, hs0⟩ := (stored_eq_some_iff stub bookingID b).1 hstored
  cases b with
  | mk a i t s p st =>
  simp only at hsettled
  subst hsettled
  simp only [json_Marshal] at hst
  simp [updateTAPay, ChaincodeStub.GetState, ChaincodeStub.PutState, hget, hput, hst,
    json_Unmarshal, json_Marshal]

/-! ## updatePayables (`updateTAPay`) -/

/-- C1, counterexample: on the ledger holding the settled booking 101 with `TotalBill = 5`,
`updatePayables` by role CTAC succeeds and stores `Payables = 13421772 * 2^-27`
(0.099999994...). That is not 2% of the bill: 50 times the payables is not the bill; it is not
even the float32 nearest to 0.1. -/
theorem updatePayables_exact_counterexample :
    (Invoke (ledgerWith "101" settled5) "updatePayables" ["CTAC", "101"]).1 = Result.ok none ∧
    (stored (Invoke (ledgerWith "101" settled5) "updatePayables" ["CTAC", "101"]).2 "101").map
        (fun b => (b.TotalBill, b.Payables))
      = some (Float32.ofNat 5, Float32.round false 13421772 (2 ^ 27)) ∧
    50 * (Float32.round false 13421772 (2 ^ 27)).units ≠ (Float32.ofNat 5).units ∧
    Float32.round false 13421772 (2 ^ 27) ≠ Float32.round false 1 10 := by
  decide

/-- C1 (amended): in every ledger whose record under `bookingID` decodes to a booking `b` with
`IsSettled = true`, `updatePayables` invoked by role CTAC succeeds whenever the ledger read and
write succeed, and every successful call leaves under `bookingID` the record `b` with `Payables`
replaced by the float32 product `b.TotalBill * 0.02` of line 297: the exact product of the bill
and the float32 nearest to 0.02, rounded to float32. -/
theorem updatePayables_sets_commission (stub : ChaincodeStub) (bookingID : String) (b : Booking)
    (hstored : stored stub bookingID = some b) (hsettled : b.IsSettled = true) :
    (stub.getErr bookingID = false → stub.putErr bookingID = false →
        (Invoke stub "updatePayables" ["CTAC", bookingID]).1 = Result.ok none) ∧
    ∀ (payload : Payload) (stub1 : ChaincodeStub),
      Invoke stub "updatePayables" ["CTAC", bookingID] = (Result.ok payload, stub1) →
      stored stub1 bookingID
        = some { b with Payables := Float32.mul b.TotalBill COMMISSION_RATE } := by
  obtain ⟨hst, hs0⟩ := (stored_eq_some_iff stub bookingID b).1 hstored
  cases b with
  | mk a i t s p st =>
  simp only at hsettled hs0
  subst hsettled hs0
  simp only [json_Marshal] at hst
  constructor
  · intro hg hp
    simp [Invoke, updateTAPay, ChaincodeStub.GetState, ChaincodeStub.PutState, hg, hp, hst,
      json_Unmarshal]
  · intro payload stub1 h
    by_cases hg : stub.getErr bookingID = true
    · simp [Invoke, updateTAPay, ChaincodeStub.GetState, hg] at h
    · by_cases hp : stub.putErr bookingID = true
      · simp [Invoke, updateTAPay, ChaincodeStub.GetState, ChaincodeStub.PutState, hg, hp, hst,
          json_Unmarshal] at h
      · simp [Invoke, updateTAPay, ChaincodeStub.GetState, ChaincodeStub.PutState, hg, hp, hst,
          json_Unmarshal] at h
        obtain ⟨-, rfl⟩ := h
        simp [stored, ChaincodeStub.write, json_Unmarshal, json_Marshal]

/-- Witness for C1 (amended), the example of the claim: on the ledger holding the settled booking 101 with
`TotalBill = 1000`, the call succeeds and leaves `Payables = 20`. -/
theorem updatePayables_sets_commission_witness :
    (Invoke (ledgerWith "101" settled1000) "updatePayables" ["CTAC", "101"]).1 = Result.ok none ∧
    stored (Invoke (ledgerWith "101" settled1000) "updatePayables" ["CTAC", "101"]).2 "101"
      = some { settled1000 with Payables := Float32.ofNat 20 } := by
  have h := updatePayables_sets_commission (ledgerWith "101" settled1000) "101" settled1000
    (by decide) (by decide)
  have hok := h.1 rfl rfl
  exact ⟨hok, (h.2 none (Invoke (ledgerWith "101" settled1000) "updatePayables" ["CTAC", "101"]).2
    (Prod.ext hok rfl)).trans (by decide)⟩

/-- C2: in every ledger whose record under `bookingID` decodes to a booking with
`IsSettled = false` (the ledger read succeeding), `updatePayables` invoked by role CTAC fails with
the settlement-pending error and the ledger after the call is the ledger before it. -/
theorem updatePayables_before_settlement (stub : ChaincodeStub) (bookingID : String) (b : Booking)
    (hget : stub.getErr bookingID = false)
    (hstored : stored stub bookingID = some b) (hunsettled : b.IsSettled = false) :
    Invoke stub "updatePayables" ["CTAC", bookingID]
      = (Result.error (Failure.settlementPending bookingID), stub) := by
  obtain ⟨hst, hs0⟩ := (stored_eq_some_iff stub bookingID b).1 hstored
  cases b with
  | mk a i t s p st =>
  simp only at hunsettled hs0
  subst hunsettled hs0
  simp only [json_Marshal] at hst
  simp [Invoke, updateTAPay, ChaincodeStub.GetState, hget, hst, json_Unmarshal]

/-- Witness for C2: the unsettled booking 101 keeps `Payables = 0` and the call reports that the
settlement is pending. -/
theorem updatePayables_before_settlement_witness :
    Invoke (ledgerWith "101" open1200) "updatePayables" ["CTAC", "101"]
      = (Result.error (Failure.settlementPending "101"), ledgerWith "101" open1200) :=
  updatePayables_before_settlement (ledgerWith "101" open1200) "101" open1200 rfl
    (by decide) (by decide)

/-! ## updateSettled -/

/-- C3, the code at the failing input: on the ledger holding the unsettled booking 101 with
bill 1200, the documented call `[HOTEL, 101, 500.0]` by role HOTEL is rejected for its argument
count and the call `[HOTEL, 101]` panics; after either the ledger is as before, the booking is
still unsettled with its old bill, and its status is not CHECKOUT. -/
theorem updateSettled_documented_call_eval :
    Invoke (ledgerWith "101" open1200) "updateSettled" ["HOTEL", "101", "500.0"]
      = (Result.error Failure.incorrectNumberOfArguments, ledgerWith "101" open1200) ∧
    Invoke (ledgerWith "101" open1200) "updateSettled" ["HOTEL", "101"]
      = (Result.panic, ledgerWith "101" open1200) ∧
    (stored (ledgerWith "101" open1200) "101").map
        (fun b => (b.IsSettled, b.TotalBill, b.status))
      = some (false, Float32.ofNat 1200, STATE_RESERVATION) ∧
    parseFloat32 "500.0" = some (Float32.ofNat 500) ∧
    Float32.ofNat 1200 ≠ Float32.ofNat 500 ∧
    STATE_RESERVATION ≠ STATE_CHECKOUT := by
  refine ⟨rfl, rfl, ?_, ?_, ?_, ?_⟩ <;> decide

/-! ## initBooking -/

/-- C4, counterexample: created by role TA on the empty ledger with the further arguments
"true" and "7", booking 101 is stored with `IsSettled = true` and `Payables = 7`, and the
following `getStatus` answers without a record. -/
theorem initBooking_defaults_counterexample :
    (Invoke ChaincodeStub.empty "initBooking" ["TA", "101", "1200.00", "true", "7"]).1
      = Result.ok none ∧
    (stored (Invoke ChaincodeStub.empty "initBooking" ["TA", "101", "1200.00", "true", "7"]).2
        "101").map (fun b => (b.status, b.IsSettled, b.Payables))
      = some (STATE_RESERVATION, true, Float32.ofNat 7) ∧
    (getStatus (Invoke ChaincodeStub.empty "initBooking" ["TA", "101", "1200.00", "true", "7"]).2
        "TA" ["TA", "101"]).1 = Result.ok none := by
  decide

/-- C4 (amended): for every argument list `TA, bookingId, x, isSettled, payables, ...` in which
the booking id text reads as a number, the fourth argument as a JSON boolean `s` and the fifth as
a float32 number `p`, and every ledger whose write succeeds, `initBooking` by role TA succeeds and
the record then stored under the booking id decodes with status RESERVATION, `IsSettled = s` and
`Payables = p`: the two fields are the caller's. -/
theorem initBooking_stores_supplied_fields (stub : ChaincodeStub) (a1 a2 a3 a4 : String)
    (rest : List String) (t p : Float32) (s : Bool)
    (hput : stub.putErr (strconv_Itoa (strconv_Atoi a1).1) = false)
    (ht : parseFloat32 a1 = some t) (hs : parseBool a3 = some s)
    (hp : parseFloat32 a4 = some p) :
    ∃ (stub1 : ChaincodeStub) (b : Booking),
      Invoke stub "initBooking" ("TA" :: a1 :: a2 :: a3 :: a4 :: rest) = (Result.ok none, stub1) ∧
      stored stub1 (strconv_Itoa (strconv_Atoi a1).1) = some b ∧
      b.status = STATE_RESERVATION ∧ b.IsSettled = s ∧ b.Payables = p := by
  refine ⟨stub.write (strconv_Itoa (strconv_Atoi a1).1)
             (Bytes.object (strings_ToLower "TA") (strconv_Atoi a1).1 t s p),
    { TravelAgentID := strings_ToLower "TA", BookingID := (strconv_Atoi a1).1,
      TotalBill := t, IsSettled := s, Payables := p, status := 0 }, ?_, ?_, rfl, rfl, rfl⟩
  · have h := initBooking_ok stub "TA" "TA" a1 a2 a3 a4 rest t p s hput ht hs hp
    simpa [Invoke] using h
  · simp [stored, ChaincodeStub.write, json_Unmarshal]

/-- Witness for C4 (amended): the arguments `TA, 101, 1200.00, false, 0` on the empty ledger. -/
theorem initBooking_stores_supplied_fields_witness :
    ∃ (stub1 : ChaincodeStub) (b : Booking),
      Invoke ChaincodeStub.empty "initBooking" ("TA" :: "101" :: "1200.00" :: "false" :: "0" :: [])
        = (Result.ok none, stub1) ∧
      stored stub1 (strconv_Itoa (strconv_Atoi "101").1) = some b ∧
      b.status = STATE_RESERVATION ∧ b.IsSettled = false ∧ b.Payables = Float32.zero :=
  initBooking_stores_supplied_fields ChaincodeStub.empty "101" "1200.00" "false" "0" []
    (Float32.ofNat 101) Float32.zero false rfl (by decide) (by decide) (by decide)

/-- C5, counterexample: on the ledger that already holds the settled booking 101, `initBooking`
with booking id 101 succeeds and the record under 101 is replaced by the new, unsettled one. -/
theorem initBooking_duplicate_counterexample :
    stored (ledgerWith "101" settled1000) "101" = some settled1000 ∧
    (Invoke (ledgerWith "101" settled1000) "initBooking" ["TA", "101", "1200.00", "false", "0"]).1
      = Result.ok none ∧
    stored (Invoke (ledgerWith "101" settled1000) "initBooking"
        ["TA", "101", "1200.00", "false", "0"]).2 "101"
      = some { settled1000 with TotalBill := Float32.ofNat 101, IsSettled := false } ∧
    settled1000.IsSettled = true := by
  decide

/-- C5 (amended): `initBooking` does not look at what the ledger holds. For every ledger that
already holds a value under the booking id, with arguments that decode and a succeeding write,
it succeeds, the value under the booking id is replaced by the new record, and every other key
keeps its value. -/
theorem initBooking_overwrites (stub : ChaincodeStub) (old : Bytes) (a1 a2 a3 a4 : String)
    (rest : List String) (t p : Float32) (s : Bool)
    (hold : stub.state (strconv_Itoa (strconv_Atoi a1).1) = some old)
    (hput : stub.putErr (strconv_Itoa (strconv_Atoi a1).1) = false)
    (ht : parseFloat32 a1 = some t) (hs : parseBool a3 = some s)
    (hp : parseFloat32 a4 = some p) :
    ∃ stub1 : ChaincodeStub,
      Invoke stub "initBooking" ("TA" :: a1 :: a2 :: a3 :: a4 :: rest) = (Result.ok none, stub1) ∧
      stub1.state (strconv_Itoa (strconv_Atoi a1).1)
        = some (Bytes.object "ta" (strconv_Atoi a1).1 t s p) ∧
      ∀ k : String, k ≠ strconv_Itoa (strconv_Atoi a1).1 → stub1.state k = stub.state k := by
  have h := initBooking_ok stub "TA" "TA" a1 a2 a3 a4 rest t p s hput ht hs hp
  have hta : strings_ToLower "TA" = "ta" := by decide
  refine ⟨_, by simpa [Invoke] using h, ?_, ?_⟩
  · simp [ChaincodeStub.write, hta]
  · intro k hk
    simp [ChaincodeStub.write, hk]

/-- Witness for C5 (amended): the ledger holding the settled booking 101. -/
theorem initBooking_overwrites_witness :
    ∃ stub1 : ChaincodeStub,
      Invoke (ledgerWith "101" settled1000) "initBooking"
          ("TA" :: "101" :: "1200.00" :: "false" :: "0" :: []) = (Result.ok none, stub1) ∧
      stub1.state (strconv_Itoa (strconv_Atoi "101").1)
        = some (Bytes.object "ta" (strconv_Atoi "101").1 (Float32.ofNat 101) false Float32.zero) ∧
      ∀ k : String, k ≠ strconv_Itoa (strconv_Atoi "101").1 →
        stub1.state k = (ledgerWith "101" settled1000).state k :=
  initBooking_overwrites (ledgerWith "101" settled1000) (json_Marshal settled1000)
    "101" "1200.00" "false" "0" [] (Float32.ofNat 101) Float32.zero false
    (by decide) rfl (by decide) (by decide) (by decide)

/-! ## Role checks of the router -/

/-- C6, counterexample: role TA asking for `updateSettled` of booking 101 gets the error
"Function of the name updateSettled doesn't exist.", the error the router also gives to role
HOTEL asking for a function name that does not exist; the code has no outcome of its own for a
role that is not authorised. -/
theorem Invoke_role_mismatch_counterexample :
    (Invoke (ledgerWith "101" open1200) "updateSettled" ["TA", "101", "500.0"]).1
      = Result.error (Failure.functionDoesNotExist "updateSettled") ∧
    (Invoke (ledgerWith "101" open1200) "updateSettle" ["HOTEL", "101", "500.0"]).1
      = Result.error (Failure.functionDoesNotExist "updateSettle") := by
  decide

/-- C6 (amended): for each of `initBooking` (role TA), `updateSettled` (role HOTEL) and
`updatePayables` (role CTAC) and every caller role different from the required one, `Invoke`
fails with the router's error "Function of the name ... doesn't exist.", the error of an unknown
function name, and the ledger after the call is the ledger before it. -/
theorem Invoke_role_mismatch (stub : ChaincodeStub) (function caller : String)
    (rest : List String)
    (h : (function = "initBooking" ∧ caller ≠ "TA") ∨
         (function = "updateSettled" ∧ caller ≠ "HOTEL") ∨
         (function = "updatePayables" ∧ caller ≠ "CTAC")) :
    Invoke stub function (caller :: rest)
      = (Result.error (Failure.functionDoesNotExist function), stub) := by
  rcases h with ⟨rfl, hc⟩ | ⟨rfl, hc⟩ | ⟨rfl, hc⟩ <;> simp [Invoke, hc]

/-- Witness for C6 (amended): role TA asks for `updateSettled` of booking 101. -/
theorem Invoke_role_mismatch_witness :
    Invoke (ledgerWith "101" open1200) "updateSettled" ("TA" :: ["101", "500.0"])
      = (Result.error (Failure.functionDoesNotExist "updateSettled"),
         ledgerWith "101" open1200) :=
  Invoke_role_mismatch (ledgerWith "101" open1200) "updateSettled" "TA" ["101", "500.0"]
    (Or.inr (Or.inl ⟨rfl, by decide⟩))

/-! ## Missing bookings -/

/-- C7, the code at the failing input: on the empty ledger `updateSettled` by role HOTEL for
booking 101 is rejected for its argument count when given `[HOTEL, 101, 500.0]` and panics on
`[HOTEL, 101]`, so it never reports that the booking does not exist; `updatePayables` and
`getStatus` (given caller and booking id) do report it. The ledger stays empty in each case. -/
theorem updateSettled_missing_booking_eval :
    Invoke ChaincodeStub.empty "updateSettled" ["HOTEL", "101", "500.0"]
      = (Result.error Failure.incorrectNumberOfArguments, ChaincodeStub.empty) ∧
    Invoke ChaincodeStub.empty "updateSettled" ["HOTEL", "101"]
      = (Result.panic, ChaincodeStub.empty) ∧
    Invoke ChaincodeStub.empty "updatePayables" ["CTAC", "101"]
      = (Result.error (Failure.bookingDoesNotExist "101"), ChaincodeStub.empty) ∧
    getStatus ChaincodeStub.empty "TA" ["TA", "101"]
      = (Result.error (Failure.bookingDoesNotExist "101"), ChaincodeStub.empty) := by
  refine ⟨?_, ?_, ?_, ?_⟩ <;> rfl

/-! ## Idempotence of updatePayables -/

/-- C9: `updatePayables` is idempotent. For every ledger and every settled booking under
`bookingID`, invoking it a second time right after the first gives the same result and the same
ledger as the first invocation alone; when the ledger read and write succeed both invocations
succeed and the stored payables are `TotalBill * 0.02` after the second as after the first. -/
theorem updatePayables_idempotent (stub : ChaincodeStub) (bookingID : String) (b : Booking)
    (hstored : stored stub bookingID = some b) (hsettled : b.IsSettled = true) :
    Invoke (Invoke stub "updatePayables" ["CTAC", bookingID]).2 "updatePayables"
        ["CTAC", bookingID]
      = Invoke stub "updatePayables" ["CTAC", bookingID] ∧
    (stub.getErr bookingID = false → stub.putErr bookingID = false →
      (Invoke stub "updatePayables" ["CTAC", bookingID]).1 = Result.ok none ∧
      stored (Invoke (Invoke stub "updatePayables" ["CTAC", bookingID]).2 "updatePayables"
          ["CTAC", bookingID]).2 bookingID
        = some { b with Payables := Float32.mul b.TotalBill COMMISSION_RATE }) := by
  have hInv : ∀ s : ChaincodeStub, Invoke s "updatePayables" ["CTAC", bookingID]
      = updateTAPay s "CTAC" ["CTAC", bookingID] := by
    intro s
    simp [Invoke]
  obtain ⟨-, hs0⟩ := (stored_eq_some_iff stub bookingID b).1 hstored
  have hst1 : stored (stub.write bookingID (json_Marshal
      { b with Payables := Float32.mul b.TotalBill COMMISSION_RATE })) bookingID
      = some { b with Payables := Float32.mul b.TotalBill COMMISSION_RATE } := by
    cases b with
    | mk a i t s p st =>
    simp only at hs0
    subst hs0
    simp [stored, ChaincodeStub.write, json_Unmarshal, json_Marshal]
  rw [hInv, hInv]
  by_cases hg : stub.getErr bookingID = true
  · have h1 : updateTAPay stub "CTAC" ["CTAC", bookingID]
        = (Result.error (Failure.failedToGetState bookingID), stub) := by
      simp [updateTAPay, ChaincodeStub.GetState, hg]
    rw [h1]
    exact ⟨h1, fun hg0 => by simp [hg0] at hg⟩
  · simp only [Bool.not_eq_true] at hg
    by_cases hp : stub.putErr bookingID = true
    · have h1 : updateTAPay stub "CTAC" ["CTAC", bookingID]
          = (Result.error Failure.putStateError, stub) := by
        obtain ⟨hst, -⟩ := (stored_eq_some_iff stub bookingID b).1 hstored
        cases b with
        | mk a i t s p st =>
        simp only at hsettled
        subst hsettled
        simp only [json_Marshal] at hst
        simp [updateTAPay, ChaincodeStub.GetState, ChaincodeStub.PutState, hg, hp, hst,
          json_Unmarshal]
      rw [h1]
      exact ⟨h1, fun _ hp0 => by simp [hp0] at hp⟩
    · simp only [Bool.not_eq_true] at hp
      have h1 := updateTAPay_ok stub "CTAC" "CTAC" bookingID b hg hp hstored hsettled
      have h2 := updateTAPay_ok (stub.write bookingID (json_Marshal
          { b with Payables := Float32.mul b.TotalBill COMMISSION_RATE })) "CTAC" "CTAC" bookingID
          { b with Payables := Float32.mul b.TotalBill COMMISSION_RATE } hg hp hst1 hsettled
      rw [h1]
      simp only at h2 ⊢
      rw [h2, write_write]
      exact ⟨rfl, fun _ _ => ⟨trivial, hst1⟩⟩

/-- Witness for C9: the settled booking 101 with bill 1000. -/
theorem updatePayables_idempotent_witness :
    Invoke (Invoke (ledgerWith "101" settled1000) "updatePayables" ["CTAC", "101"]).2
        "updatePayables" ["CTAC", "101"]
      = Invoke (ledgerWith "101" settled1000) "updatePayables" ["CTAC", "101"] ∧
    (stored (Invoke (Invoke (ledgerWith "101" settled1000) "updatePayables" ["CTAC", "101"]).2
        "updatePayables" ["CTAC", "101"]).2 "101").map Booking.Payables
      = some (Float32.ofNat 20) := by
  have h := updatePayables_idempotent (ledgerWith "101" settled1000) "101" settled1000
    (by decide) (by decide)
  exact ⟨h.1, by rw [(h.2 rfl rfl).2]; decide⟩

/-! ## The scenario of the specification -/

/-- C10, the code at the failing input: the first step of the scenario, `initBooking` by role TA
with the arguments `TA, ta1, 101, 1200.00`, panics on the read of a fifth argument and stores
nothing. When booking 101 is created with five arguments `TA, 101, 1200.00, false, 0` instead,
the next steps fail as well: `updateSettled` by role HOTEL with `HOTEL, 101, 1150.00` is rejected
for its argument count, `updatePayables` by role CTAC then finds the booking unsettled, and the
query `getStatus` with `101` is rejected for its argument count. The stored booking has total
bill 101, is unsettled and has payables 0. -/
theorem scenario_eval :
    (Invoke ChaincodeStub.empty "initBooking" ["TA", "ta1", "101", "1200.00"]).1 = Result.panic ∧
    stored (Invoke ChaincodeStub.empty "initBooking" ["TA", "ta1", "101", "1200.00"]).2 "101"
      = none ∧
    (Invoke ChaincodeStub.empty "initBooking" ["TA", "101", "1200.00", "false", "0"]).1
      = Result.ok none ∧
    Invoke scenarioCreated "updateSettled" ["HOTEL", "101", "1150.00"]
      = (Result.error Failure.incorrectNumberOfArguments, scenarioCreated) ∧
    Invoke scenarioCreated "updatePayables" ["CTAC", "101"]
      = (Result.error (Failure.settlementPending "101"), scenarioCreated) ∧
    Query scenarioCreated "getStatus" ["101"]
      = (Result.error Failure.incorrectNumberOfArguments, scenarioCreated) ∧
    (stored scenarioCreated "101").map
        (fun b => (b.BookingID, b.TotalBill, b.IsSettled, b.Payables, b.status))
      = some (101, Float32.ofNat 101, false, Float32.zero, STATE_RESERVATION) := by
  refine ⟨by decide, by decide, by decide, rfl, rfl, rfl, by decide⟩

/-! ## Outcome of each function: a failure leaves the ledger as it was -/

/-- The function `initBooking` either succeeds or returns the ledger it was given. -/
theorem initBooking_ok_or_unchanged (stub : ChaincodeStub) (function : String)
    (args : List String) :
    (initBooking stub function args).1 = Result.ok none ∨
      (initBooking stub function args).2 = stub := by
  unfold initBooking
  split
  · simp only
    split
    · exact Or.inr rfl
    · split
      · exact Or.inr rfl
      · exact Or.inl rfl
  · exact Or.inr rfl

/-- The function `updateSettled` never gets behind its argument handling: it panics on two
arguments and rejects every other argument count; the ledger is returned as given. -/
theorem updateSettled_eq (stub : ChaincodeStub) (function : String) (args : List String) :
    updateSettled stub function args
      = (if args.length = 2 then Result.panic
         else Result.error Failure.incorrectNumberOfArguments, stub) := by
  unfold updateSettled
  by_cases h : args.length = 2
  · match args, h with
    | [a, b], _ => simp
  · simp [h]

/-- The function `updateTAPay` either succeeds or returns the ledger it was given. -/
theorem updateTAPay_ok_or_unchanged (stub : ChaincodeStub) (function : String)
    (args : List String) :
    (updateTAPay stub function args).1 = Result.ok none ∨
      (updateTAPay stub function args).2 = stub := by
  unfold updateTAPay
  split
  · exact Or.inr rfl
  · split
    · exact Or.inr rfl
    · split
      · exact Or.inr rfl
      · exact Or.inr rfl
      · split
        · exact Or.inr rfl
        · split
          · exact Or.inr rfl
          · simp only
            split
            · exact Or.inr rfl
            · exact Or.inl rfl

/-- The function `getStatus` returns the ledger it was given. -/
theorem getStatus_unchanged (stub : ChaincodeStub) (function : String) (args : List String) :
    (getStatus stub function args).2 = stub := by
  unfold getStatus
  repeat (first | rfl | split)

/-- An invocation through `Invoke` either succeeds or returns the ledger it was given. -/
theorem Invoke_ok_or_unchanged (stub : ChaincodeStub) (function : String) (args : List String) :
    (Invoke stub function args).1 = Result.ok none ∨ (Invoke stub function args).2 = stub := by
  unfold Invoke
  split
  · exact Or.inr rfl
  · split
    · exact initBooking_ok_or_unchanged _ _ _
    · split
      · rw [updateSettled_eq]; exact Or.inr rfl
      · split
        · exact updateTAPay_ok_or_unchanged _ _ _
        · exact Or.inr rfl

/-- A query returns the ledger it was given. -/
theorem Query_unchanged (stub : ChaincodeStub) (function : String) (args : List String) :
    (Query stub function args).2 = stub := by
  unfold Query
  split
  · split
    · rfl
    · split
      · rfl
      · exact getStatus_unchanged _ _ _
  · rfl

/-! ## getStatus through the router -/

/-- C11, the code at the failing input: on the ledger holding booking 101, the query
`getStatus` with the single argument `101` is rejected by `getStatus` itself, which wants two
arguments; with two arguments the router rejects it; and `getStatus` given caller and booking id
succeeds without handing back the record (no payload). The ledger is unchanged in each case. -/
theorem Query_getStatus_eval :
    Query (ledgerWith "101" open1200) "getStatus" ["101"]
      = (Result.error Failure.incorrectNumberOfArguments, ledgerWith "101" open1200) ∧
    Query (ledgerWith "101" open1200) "getStatus" ["TA", "101"]
      = (Result.error Failure.queryIncorrectNumberOfArguments, ledgerWith "101" open1200) ∧
    getStatus (ledgerWith "101" open1200) "TA" ["TA", "101"]
      = (Result.ok none, ledgerWith "101" open1200) ∧
    stored (ledgerWith "101" open1200) "101" = some open1200 := by
  refine ⟨?_, ?_, ?_, ?_⟩ <;> rfl

/-! ## No partial mutation -/

/-- C12: for every ledger and every invocation of `initBooking`, `updateSettled`, `updateTAPay`
(updatePayables) or `getStatus`, directly or through the routers `Invoke` and `Query`, that does
not succeed, a failure is returned (an error or a panic) and the ledger after the call is the
ledger before it. -/
theorem failure_writes_nothing (stub : ChaincodeStub) (function : String) (args : List String)
    (op : ChaincodeStub → String → List String → Result Payload × ChaincodeStub)
    (hop : op = initBooking ∨ op = updateSettled ∨ op = updateTAPay ∨ op = getStatus ∨
           op = Invoke ∨ op = Query)
    (hfail : ∀ payload : Payload, (op stub function args).1 ≠ Result.ok payload) :
    (op stub function args).2 = stub ∧
    ((op stub function args).1 = Result.panic ∨
      ∃ e : Failure, (op stub function args).1 = Result.error e) := by
  constructor
  · rcases hop with rfl | rfl | rfl | rfl | rfl | rfl
    · exact (initBooking_ok_or_unchanged stub function args).resolve_left (hfail none)
    · rw [updateSettled_eq]
    · exact (updateTAPay_ok_or_unchanged stub function args).resolve_left (hfail none)
    · exact getStatus_unchanged stub function args
    · exact (Invoke_ok_or_unchanged stub function args).resolve_left (hfail none)
    · exact Query_unchanged stub function args
  · cases hr : (op stub function args).1 with
    | ok v => exact absurd hr (hfail v)
    | error e => exact Or.inr ⟨e, rfl⟩
    | panic => exact Or.inl rfl

/-- Witness for C12: `updateTAPay` on the unsettled booking 101 fails and writes nothing. -/
theorem failure_writes_nothing_witness :
    (updateTAPay (ledgerWith "101" open1200) "CTAC" ["CTAC", "101"]).2
      = ledgerWith "101" open1200 ∧
    ((updateTAPay (ledgerWith "101" open1200) "CTAC" ["CTAC", "101"]).1 = Result.panic ∨
      ∃ e : Failure,
        (updateTAPay (ledgerWith "101" open1200) "CTAC" ["CTAC", "101"]).1 = Result.error e) :=
  failure_writes_nothing (ledgerWith "101" open1200) "CTAC" ["CTAC", "101"] updateTAPay
    (Or.inr (Or.inr (Or.inl rfl)))
    (fun payload h => by
      rw [show (updateTAPay (ledgerWith "101" open1200) "CTAC" ["CTAC", "101"]).1
            = Result.error (Failure.settlementPending "101") from by decide] at h
      cases h)

/-! ## Fields written by initBooking -/

/-- C13, the code at the failing input: `initBooking` by role TA with the arguments
`TA, 101, 1200.00, false, 0` stores under the key "101" a booking with agent id "ta" (the first
argument, lowered), booking id 101 and `TotalBill = 101`: the bill is read from `args[1]`, the
booking id, and the text "1200.00" (which denotes 1200) is not read; another third argument
gives the same record. -/
theorem initBooking_totalBill_eval :
    (stored scenarioCreated "101").map (fun b => (b.TravelAgentID, b.BookingID, b.TotalBill))
      = some ("ta", 101, Float32.ofNat 101) ∧
    parseFloat32 "1200.00" = some (Float32.ofNat 1200) ∧
    Float32.ofNat 101 ≠ Float32.ofNat 1200 ∧
    stored (Invoke ChaincodeStub.empty "initBooking" ["TA", "101", "77.5", "false", "0"]).2 "101"
      = stored scenarioCreated "101" := by
  decide

/-! ## Argument validation of initBooking -/

/-- Writing a record that satisfies the invariant keeps the invariant of the ledger. -/
theorem payablesOnlyIfSettled_write (stub : ChaincodeStub) (key : String) (v : Bytes)
    (hinv : payablesOnlyIfSettled stub)
    (hv : ∀ b : Booking, json_Unmarshal (some v) = some b →
      b.Payables ≠ Float32.zero → b.IsSettled = true) :
    payablesOnlyIfSettled (stub.write key v) := by
  intro k b hst hp
  unfold stored ChaincodeStub.write at hst
  by_cases hk : k = key
  · simp only [hk, if_true] at hst
    exact hv b hst hp
  · simp only [hk, if_false] at hst
    exact hinv k b hst hp

/-- A successful `PutState` returns the ledger with the value written. -/
theorem PutState_eq_some (stub : ChaincodeStub) (key : String) (v : Bytes)
    (stub1 : ChaincodeStub) (h : stub.PutState key v = some stub1) :
    stub1 = stub.write key v := by
  unfold ChaincodeStub.PutState at h
  split at h
  · cases h
  · cases h; rfl

/-- The ledger after `initBooking`: the ledger given, or one record written whose `IsSettled`
and `Payables` are the decoded fourth and fifth argument. -/
theorem initBooking_ledger (stub : ChaincodeStub) (function : String) (args : List String) :
    (initBooking stub function args).2 = stub ∨
    ∃ (a3 a4 key a : String) (i : Int) (t p : Float32) (s : Bool),
      args.get? 3 = some a3 ∧ args.get? 4 = some a4 ∧
      parseBool a3 = some s ∧ parseFloat32 a4 = some p ∧
      (initBooking stub function args).2 = stub.write key (Bytes.object a i t s p) := by
  unfold initBooking
  split
  · rename_i a0 a1 a3 a4 h0 h1 h3 h4
    simp only
    split
    · exact Or.inl rfl
    · rename_i bytes hj
      split
      · exact Or.inl rfl
      · rename_i stub1 hput
        have h1 := PutState_eq_some stub _ _ stub1 hput
        subst h1
        unfold booking_json at hj
        split at hj
        · rename_i t s p ht hs hp
          cases hj
          exact Or.inr ⟨a3, a4, _, _, _, t, p, s, h3, h4, hs, hp, rfl⟩
        · cases hj
  · exact Or.inl rfl

/-- The ledger after `updateTAPay`: the ledger given, or one settled record written. -/
theorem updateTAPay_ledger (stub : ChaincodeStub) (function : String) (args : List String) :
    (updateTAPay stub function args).2 = stub ∨
    ∃ (key a : String) (i : Int) (t p : Float32),
      (updateTAPay stub function args).2 = stub.write key (Bytes.object a i t true p) := by
  unfold updateTAPay
  split
  · exact Or.inl rfl
  · split
    · exact Or.inl rfl
    · rename_i bookingID hid
      split
      · exact Or.inl rfl
      · exact Or.inl rfl
      · split
        · exact Or.inl rfl
        · rename_i bookingTemp hu
          split
          · exact Or.inl rfl
          · rename_i hs
            simp only [ne_eq, Decidable.not_not] at hs
            simp only
            split
            · exact Or.inl rfl
            · rename_i stub1 hput
              have h1 := PutState_eq_some stub _ _ stub1 hput
              subst h1
              exact Or.inr ⟨bookingID, bookingTemp.TravelAgentID, bookingTemp.BookingID,
                bookingTemp.TotalBill, Float32.mul bookingTemp.TotalBill COMMISSION_RATE,
                by simp [json_Marshal, hs]⟩

/-- The ledger after the steps of `updateSettled`: the ledger given, or one settled record
written. -/
theorem updateSettled_steps_ledger (stub : ChaincodeStub) (bookingID bill : String) :
    (updateSettled_steps stub bookingID bill).2 = stub ∨
    ∃ (key a : String) (i : Int) (t p : Float32),
      (updateSettled_steps stub bookingID bill).2
        = stub.write key (Bytes.object a i t true p) := by
  unfold updateSettled_steps
  split
  · exact Or.inl rfl
  · exact Or.inl rfl
  · split
    · exact Or.inl rfl
    · rename_i bookingTemp hu
      simp only
      split
      · exact Or.inl rfl
      · rename_i stub1 hput
        have h1 := PutState_eq_some stub _ _ stub1 hput
        subst h1
        exact Or.inr ⟨bookingID, bookingTemp.TravelAgentID, bookingTemp.BookingID,
          (parseFloat32 bill).getD Float32.zero, bookingTemp.Payables, by simp [json_Marshal]⟩

/-- One entry of a history that creates no unsettled booking with payables keeps the
invariant. -/
theorem payablesOnlyIfSettled_run (stub : ChaincodeStub) (c : Invocation)
    (hinv : payablesOnlyIfSettled stub) (hc : c.createsConsistent = true) :
    payablesOnlyIfSettled (c.run stub) := by
  have settledKeeps : ∀ (key a : String) (i : Int) (t p : Float32),
      payablesOnlyIfSettled (stub.write key (Bytes.object a i t true p)) := by
    intro key a i t p
    refine payablesOnlyIfSettled_write stub key _ hinv ?_
    intro b hb _
    simp only [json_Unmarshal, Option.some.injEq] at hb
    subst hb
    rfl
  cases c with
  | settle bookingID bill =>
    simp only [Invocation.run]
    rcases updateSettled_steps_ledger stub bookingID bill with h | ⟨key, a, i, t, p, h⟩
    · rw [h]; exact hinv
    · rw [h]; exact settledKeeps key a i t p
  | invoke function args =>
    simp only [Invocation.createsConsistent, decide_eq_true_eq] at hc
    simp only [Invocation.run]
    unfold Invoke
    split
    · exact hinv
    · rename_i caller hcaller
      split
      · rename_i hf
        rcases initBooking_ledger stub caller args with
          h | ⟨a3, a4, key, a, i, t, p, s, h3, h4, hs, hp, h⟩
        · rw [h]; exact hinv
        · rw [h]
          refine payablesOnlyIfSettled_write stub key _ hinv ?_
          intro b hb hne
          simp only [json_Unmarshal, Option.some.injEq] at hb
          subst hb
          rcases hc hf.1 with h3t | h4z
          · rw [h3] at h3t
            cases h3t
            have ht : parseBool "true" = some true := by decide
            rw [ht] at hs
            cases hs
            rfl
          · rw [h4] at h4z
            change parseFloat32 a4 = some Float32.zero at h4z
            rw [hp] at h4z
            cases h4z
            exact absurd rfl hne
      · split
        · rw [updateSettled_eq]; exact hinv
        · split
          · rcases updateTAPay_ledger stub caller args with h | ⟨key, a, i, t, p, h⟩
            · rw [h]; exact hinv
            · rw [h]; exact settledKeeps key a i t p
          · exact hinv

/-- C16, counterexample: the ledger reached from the empty ledger by the single invocation
`initBooking` with the arguments `TA, 101, 1200.00, false, 7` holds booking 101 unsettled with
payables 7, so the invariant fails in a reachable ledger. -/
theorem payables_invariant_counterexample :
    (stored (history ChaincodeStub.empty
        [Invocation.invoke "initBooking" ["TA", "101", "1200.00", "false", "7"]]) "101").map
      (fun b => (b.IsSettled, b.Payables)) = some (false, Float32.ofNat 7) ∧
    Float32.ofNat 7 ≠ Float32.zero ∧
    ¬ payablesOnlyIfSettled (history ChaincodeStub.empty
        [Invocation.invoke "initBooking" ["TA", "101", "1200.00", "false", "7"]]) := by
  refine ⟨by decide, by decide, ?_⟩
  intro hinv
  have h := hinv "101"
    { TravelAgentID := "ta", BookingID := 101, TotalBill := Float32.ofNat 101,
      IsSettled := false, Payables := Float32.ofNat 7, status := 0 } (by decide) (by decide)
  exact absurd h (by decide)

/-- C16 (amended): in every ledger reached from an empty ledger by any sequence of invocations
through `Invoke` (with arbitrary function names and arguments, successful or failing) and of
runs of the steps of `updateSettled`, in which every `initBooking` invocation passes "true" as
its fourth argument or a number decoding to zero as its fifth, every stored booking has
non-zero payables only if it is settled. -/
theorem payables_invariant (stub : ChaincodeStub) (calls : List Invocation)
    (hempty : ∀ k : String, stub.state k = none)
    (hcalls : ∀ c ∈ calls, c.createsConsistent = true) :
    payablesOnlyIfSettled (history stub calls) := by
  have h0 : payablesOnlyIfSettled stub := by
    intro k b hst
    simp [stored, hempty k, json_Unmarshal] at hst
  clear hempty
  unfold history
  induction calls generalizing stub with
  | nil => exact h0
  | cons c rest ih =>
    simp only [List.foldl_cons]
    exact ih (c.run stub) (fun c1 hc1 => hcalls c1 (List.mem_cons_of_mem c hc1))
      (payablesOnlyIfSettled_run stub c h0 (hcalls c (List.mem_cons_self c rest)))

/-- Witness for C16 (amended): the history create (payables 0), settle, compute payables. -/
theorem payables_invariant_witness :
    payablesOnlyIfSettled (history ChaincodeStub.empty
      [Invocation.invoke "initBooking" ["TA", "101", "1200.00", "false", "0"],
       Invocation.settle "101" "1150.00",
       Invocation.invoke "updatePayables" ["CTAC", "101"]]) :=
  payables_invariant ChaincodeStub.empty _ (fun _ => rfl) (by decide)

/-! ## The store: load and save -/

/-- C17, the code at the failing input: `retrieveBooking` on a key without value does not report
a missing record; the nil bytes go to the decoder and the result is the "Invalid booking record"
error, the same error that undecodable bytes give. The sibling `updateTAPay` reports "Booking ID
does not exist" on the same ledger. Bytes that decode are returned as the decoded booking. -/
theorem retrieveBooking_absent_eval :
    retrieveBooking ChaincodeStub.empty ["101"]
      = Result.error (Failure.invalidBookingRecord none) ∧
    retrieveBooking ledgerCorrupt ["101"]
      = Result.error (Failure.invalidBookingRecord (some (Bytes.undecodable "not json"))) ∧
    (updateTAPay ChaincodeStub.empty "CTAC" ["CTAC", "101"]).1
      = Result.error (Failure.bookingDoesNotExist "101") ∧
    retrieveBooking (ledgerWith "101" open1200) ["101"] = Result.ok open1200 := by
  decide

/-- C20, the code at the failing input: the booking 101 with status CANCEL is saved by
`save_changes` in the empty ledger; `retrieveBooking` of 101 then returns it with status
RESERVATION: five fields come back, the unexported field `status` does not. -/
theorem save_retrieve_status_eval :
    cancelled1200.status = STATE_CANCEL ∧
    (save_changes ChaincodeStub.empty cancelled1200).1 = Result.ok true ∧
    retrieveBooking ledgerCancelled ["101"]
      = Result.ok { cancelled1200 with status := STATE_RESERVATION } ∧
    retrieveBooking ledgerCancelled ["101"] ≠ Result.ok cancelled1200 := by
  decide

/-! ## Argument handling of updateSettled -/

/-- C19, the code on every argument list: `updateSettled` accepts exactly the lists of length 2
and then reads index 2, which such a list does not have, so it panics; every other list, the
documented `[caller, bookingId, bill]` included, is rejected for its argument count. The ledger
read is never reached and the ledger is returned as given. -/
theorem updateSettled_argument_handling (stub : ChaincodeStub) (function : String)
    (args : List String) :
    updateSettled stub function args
      = (if args.length = 2 then Result.panic
         else Result.error Failure.incorrectNumberOfArguments, stub) ∧
    (∀ caller bookingID bill : String,
      updateSettled stub function [caller, bookingID, bill]
        = (Result.error Failure.incorrectNumberOfArguments, stub)) ∧
    (∀ caller bookingID : String,
      [caller, bookingID].get? 2 = none ∧
      updateSettled stub function [caller, bookingID] = (Result.panic, stub)) := by
  refine ⟨updateSettled_eq stub function args, ?_, ?_⟩
  · intro caller bookingID bill
    rw [updateSettled_eq]
    rfl
  · intro caller bookingID
    refine ⟨rfl, ?_⟩
    rw [updateSettled_eq]
    rfl

/-! ## Frame of the update operations -/

end TAcommissioning
